import Mathlib

/-
  Verification of the AntennaLab analytic core.

  Shallow embedding of:
  - src/lib/physics/constants.ts            (PHYSICS_CONSTANTS, PHYSICS_LIMITS, NODES_CONFIG)
  - src/lib/physics/nodescalculator.ts      (class NodesCalculator)
  - src/components/antenna-visualization.tsx (embedded class NodesCalculator, _isResonant)
  - the ImpedanceCalculator, which is imported by the sources but whose file is
    not part of the sources here; it is modelled from the specification, §4.1.

  JavaScript numbers are modelled as real numbers; JS arrays of numbers as
  `List ℝ`.  `[...new Set(xs)].sort((a, b) => a - b)` is modelled as
  deduplication followed by sorting by `≤` (the result is the ascending
  enumeration of the set of elements, independent of the input order and of
  which duplicate occurrence is kept).
-/

namespace AntennaLab

/-- `PHYSICS_CONSTANTS.FREE_SPACE_IMPEDANCE` from src/lib/physics/constants.ts. -/
def FREE_SPACE_IMPEDANCE : ℝ := 376.730313668

/-- `PHYSICS_CONSTANTS.SPEED_OF_LIGHT` from src/lib/physics/constants.ts. -/
def SPEED_OF_LIGHT : ℝ := 299792458

/-- `PHYSICS_CONSTANTS.DIPOLE_BASE_RESISTANCE` from src/lib/physics/constants.ts. -/
def DIPOLE_BASE_RESISTANCE : ℝ := 73.1

/-- `PHYSICS_CONSTANTS.HIGH_IMPEDANCE_LIMIT` from src/lib/physics/constants.ts. -/
def HIGH_IMPEDANCE_LIMIT : ℝ := 15000

/-- `PHYSICS_CONSTANTS.CURRENT_NULL_RESISTANCE` from src/lib/physics/constants.ts. -/
def CURRENT_NULL_RESISTANCE : ℝ := 2000

/-- `PHYSICS_CONSTANTS.HALF_WAVE_END_FED_RESISTANCE` from src/lib/physics/constants.ts. -/
def HALF_WAVE_END_FED_RESISTANCE : ℝ := 2500

/-- `PHYSICS_CONSTANTS.END_FED_HIGH_IMPEDANCE` from src/lib/physics/constants.ts. -/
def END_FED_HIGH_IMPEDANCE : ℝ := 5000

/-- `NODES_CONFIG.MAX_HARMONICS` from src/lib/physics/constants.ts. -/
def MAX_HARMONICS : ℕ := 8

/-- `NODES_CONFIG.EDGE_BUFFER` from src/lib/physics/constants.ts. -/
def EDGE_BUFFER : ℝ := 0.1

/-- The `{resistance, reactance}` record used throughout the physics core. -/
structure Impedance where
  resistance : ℝ
  reactance : ℝ

/-- `_isResonant` of the `NodesCalculator` embedded in
src/components/antenna-visualization.tsx (lines 181-184):
`Math.abs(impedance.reactance) < Math.max(15, impedance.resistance * 0.2)`.
The specification (§4.3) gives the same formula for `PhysicsUtils.isResonant`,
which src/lib/physics/nodescalculator.ts loads from the (absent)
physicsutils module. -/
def isResonant (z : Impedance) : Prop :=
  |z.reactance| < max 15 (z.resistance * 0.2)

noncomputable instance (z : Impedance) : Decidable (isResonant z) := by
  unfold isResonant; infer_instance

/-- `clamp` of NumericUtils (spec §4.3): restrict `v` to `[lo, hi]`. -/
def clamp (v lo hi : ℝ) : ℝ := min (max v lo) hi

/-- `[...new Set(l)].sort((a, b) => a - b)`: deduplicate, then sort ascending. -/
noncomputable def sortedDedup (l : List ℝ) : List ℝ :=
  l.dedup.insertionSort (· ≤ ·)

/-- The `status` field of the record returned by `getResonanceGuidance`
(src/lib/physics/nodescalculator.ts, 36-77). -/
inductive GuidanceStatus
  | resonant
  | notResonant
deriving DecidableEq

/-- The shape of the `guidance` message built by `getResonanceGuidance`
(src/lib/physics/nodescalculator.ts, 36-77): well-matched, too short (add
wire), too long (remove wire), or nearly resonant. -/
inductive GuidanceKind
  | wellMatched
  | tooShortAdd
  | tooLongRemove
  | nearlyResonant
deriving DecidableEq

/-- The record returned by `getResonanceGuidance`
(src/lib/physics/nodescalculator.ts, 36-77), with the guidance message
abstracted to its shape and the target length it displays.  The resonant
branch returns `lengthAdjustment: null`, modelled as `none`. -/
structure ResonanceGuidance where
  status : GuidanceStatus
  kind : GuidanceKind
  lengthAdjustment : Option ℝ
  targetLength : Option ℝ

namespace NodesCalculator

/-- `_calculateCurrentNodes` of src/lib/physics/nodescalculator.ts (118-142).
Both branches of the feed-position dispatch push both wire ends, then the
internal loop adds `±(n+0.5)π/k` for `n = 0..MAX_HARMONICS-1` while inside
the edge buffer. -/
noncomputable def _calculateCurrentNodes (length k : ℝ) (_feedPosition : ℝ) : List ℝ :=
  let halfLength := length / 2
  let internal := (List.range MAX_HARMONICS).foldr
    (fun n acc =>
      let nodePosition := ((n : ℝ) + 0.5) * Real.pi / k
      if nodePosition < halfLength - EDGE_BUFFER then
        nodePosition :: -nodePosition :: acc
      else acc) []
  sortedDedup (-halfLength :: halfLength :: internal)

/-- `_calculateCurrentAntinodes` of src/lib/physics/nodescalculator.ts (144-171).
Center-fed pushes 0; end-fed pushes the fed end; off-center pushes
`(feedPosition - 0.5) * length`; then internal `±nπ/k` for `n = 1..MAX_HARMONICS-1`. -/
noncomputable def _calculateCurrentAntinodes (length k : ℝ) (feedPosition : ℝ) : List ℝ :=
  let halfLength := length / 2
  let base : List ℝ :=
    if feedPosition = 0.5 then [0]
    else if feedPosition = 0 ∨ feedPosition = 1 then
      [if feedPosition = 0 then -halfLength else halfLength]
    else [(feedPosition - 0.5) * length]
  let internal := (List.range' 1 (MAX_HARMONICS - 1)).foldr
    (fun n acc =>
      let antinodePosition := (n : ℝ) * Real.pi / k
      if antinodePosition < halfLength - EDGE_BUFFER then
        antinodePosition :: -antinodePosition :: acc
      else acc) []
  sortedDedup (base ++ internal)

/-- `_calculateVoltageNodes` of src/lib/physics/nodescalculator.ts (173-193).
Center-fed pushes 0; then internal `±nπ/k` for `n = 1..MAX_HARMONICS-1`. -/
noncomputable def _calculateVoltageNodes (length k : ℝ) (feedPosition : ℝ) : List ℝ :=
  let halfLength := length / 2
  let base : List ℝ := if feedPosition = 0.5 then [0] else []
  let internal := (List.range' 1 (MAX_HARMONICS - 1)).foldr
    (fun n acc =>
      let nodePosition := (n : ℝ) * Real.pi / k
      if nodePosition < halfLength - EDGE_BUFFER then
        nodePosition :: -nodePosition :: acc
      else acc) []
  sortedDedup (base ++ internal)

/-- `_calculateVoltageAntinodes` of src/lib/physics/nodescalculator.ts (195-213).
Both wire ends always; then internal `±(n+0.5)π/k` for `n = 0..MAX_HARMONICS-1`
subject to both the edge buffer and the center buffer. -/
noncomputable def _calculateVoltageAntinodes (length k : ℝ) (_feedPosition : ℝ) : List ℝ :=
  let halfLength := length / 2
  let internal := (List.range MAX_HARMONICS).foldr
    (fun n acc =>
      let antinodePosition := ((n : ℝ) + 0.5) * Real.pi / k
      if antinodePosition < halfLength - EDGE_BUFFER ∧ antinodePosition > EDGE_BUFFER then
        antinodePosition :: -antinodePosition :: acc
      else acc) []
  sortedDedup (-halfLength :: halfLength :: internal)

/-- `_getHarmonicNumber` of src/lib/physics/nodescalculator.ts (215-219):
`Math.round(electricalLength * 2)`, replaced by 1 when `≤ 0`. -/
noncomputable def _getHarmonicNumber (electricalLength : ℝ) : ℤ :=
  let harmonic := round (electricalLength * 2)
  if harmonic ≤ 0 then 1 else harmonic

/-- The record returned by `calculateNodesAndAntinodes`
(src/lib/physics/nodescalculator.ts, 10-34). -/
structure NodeSet where
  currentNodes : List ℝ
  currentAntinodes : List ℝ
  voltageNodes : List ℝ
  voltageAntinodes : List ℝ
  harmonic : ℤ
  resonant : Prop

/-- `calculateNodesAndAntinodes` of src/lib/physics/nodescalculator.ts (10-34);
the model supplies `length`, `waveNumber` `k`, `electricalLength`,
`feedPosition` and its impedance. -/
noncomputable def calculateNodesAndAntinodes (length k electricalLength feedPosition : ℝ)
    (impedance : Impedance) : NodeSet where
  currentNodes := _calculateCurrentNodes length k feedPosition
  currentAntinodes := _calculateCurrentAntinodes length k feedPosition
  voltageNodes := _calculateVoltageNodes length k feedPosition
  voltageAntinodes := _calculateVoltageAntinodes length k feedPosition
  harmonic := _getHarmonicNumber electricalLength
  resonant := isResonant impedance

/-- `getResonanceGuidance` of src/lib/physics/nodescalculator.ts (36-77).
The model supplies its impedance, wavelength and current length.  Note the
code divides the reactance by the literal `377`, not by
`PHYSICS_CONSTANTS.FREE_SPACE_IMPEDANCE`; in the too-long branch it divides
the raw (positive) reactance rather than its absolute value. -/
noncomputable def getResonanceGuidance (impedance : Impedance)
    (wavelength currentLength : ℝ) : ResonanceGuidance :=
  let reactance := impedance.reactance
  if isResonant impedance then
    ⟨.resonant, .wellMatched, none, none⟩
  else if reactance < -15 then
    let lengthAdjustment := |reactance| / 377 * wavelength * 0.1
    ⟨.notResonant, .tooShortAdd, some lengthAdjustment,
      some (currentLength + lengthAdjustment)⟩
  else if reactance > 15 then
    let lengthAdjustment := reactance / 377 * wavelength * 0.1
    ⟨.notResonant, .tooLongRemove, some lengthAdjustment,
      some (currentLength - lengthAdjustment)⟩
  else
    ⟨.notResonant, .nearlyResonant, some 0, none⟩

end NodesCalculator

namespace Visualization

/-- `_calculateCurrentNodes` of the `NodesCalculator` embedded in
src/components/antenna-visualization.tsx (76-99): both wire ends, then
internal `±(n+0.5)π/k` for `n = 0..⌈electricalLength*4⌉-1` inside a
proportional edge buffer.  No feed-position parameter. -/
noncomputable def _calculateCurrentNodes (length k : ℝ) : List ℝ :=
  let halfLength := length / 2
  let wavelength := 2 * Real.pi / k
  let electricalLength := length / wavelength
  let maxNodes := (⌈electricalLength * 4⌉).toNat
  let edgeBuffer := min 0.1 (wavelength * 0.05)
  let internal := (List.range maxNodes).foldr
    (fun n acc =>
      let nodePosition := ((n : ℝ) + 0.5) * Real.pi / k
      if nodePosition < halfLength - edgeBuffer then
        nodePosition :: -nodePosition :: acc
      else acc) []
  sortedDedup (-halfLength :: halfLength :: internal)

/-- `_calculateCurrentAntinodes` of the `NodesCalculator` embedded in
src/components/antenna-visualization.tsx (101-123): the center always, then
internal `±nπ/k` for `n = 1..⌈electricalLength*4⌉-1` inside a proportional
edge buffer.  No feed-position parameter. -/
noncomputable def _calculateCurrentAntinodes (length k : ℝ) : List ℝ :=
  let halfLength := length / 2
  let wavelength := 2 * Real.pi / k
  let electricalLength := length / wavelength
  let maxAntinodes := (⌈electricalLength * 4⌉).toNat
  let edgeBuffer := min 0.1 (wavelength * 0.05)
  let internal := (List.range' 1 (maxAntinodes - 1)).foldr
    (fun n acc =>
      let antinodePosition := (n : ℝ) * Real.pi / k
      if antinodePosition < halfLength - edgeBuffer then
        antinodePosition :: -antinodePosition :: acc
      else acc) []
  sortedDedup (0 :: internal)

/-- `_calculateVoltageNodes` of the `NodesCalculator` embedded in
src/components/antenna-visualization.tsx (125-147). -/
noncomputable def _calculateVoltageNodes (length k : ℝ) : List ℝ :=
  let halfLength := length / 2
  let wavelength := 2 * Real.pi / k
  let electricalLength := length / wavelength
  let maxNodes := (⌈electricalLength * 4⌉).toNat
  let edgeBuffer := min 0.1 (wavelength * 0.05)
  let internal := (List.range' 1 (maxNodes - 1)).foldr
    (fun n acc =>
      let nodePosition := (n : ℝ) * Real.pi / k
      if nodePosition < halfLength - edgeBuffer then
        nodePosition :: -nodePosition :: acc
      else acc) []
  sortedDedup (0 :: internal)

/-- `_calculateVoltageAntinodes` of the `NodesCalculator` embedded in
src/components/antenna-visualization.tsx (149-173). -/
noncomputable def _calculateVoltageAntinodes (length k : ℝ) : List ℝ :=
  let halfLength := length / 2
  let wavelength := 2 * Real.pi / k
  let electricalLength := length / wavelength
  let maxAntinodes := (⌈electricalLength * 4⌉).toNat
  let edgeBuffer := min 0.1 (wavelength * 0.05)
  let centerBuffer := max 0.1 (wavelength * 0.05)
  let internal := (List.range maxAntinodes).foldr
    (fun n acc =>
      let antinodePosition := ((n : ℝ) + 0.5) * Real.pi / k
      if antinodePosition < halfLength - edgeBuffer ∧ antinodePosition > centerBuffer then
        antinodePosition :: -antinodePosition :: acc
      else acc) []
  sortedDedup (-halfLength :: halfLength :: internal)

/-- `_getHarmonicNumber` of the `NodesCalculator` embedded in
src/components/antenna-visualization.tsx (175-179). -/
noncomputable def _getHarmonicNumber (electricalLength : ℝ) : ℤ :=
  let harmonic := round (electricalLength * 2)
  if harmonic ≤ 0 then 1 else harmonic

/-- `calculateNodesAndAntinodes` of the `NodesCalculator` embedded in
src/components/antenna-visualization.tsx (50-74); the model supplies
`length`, `waveNumber` `k`, `electricalLength` and its impedance.  Unlike
the src/lib/physics version, the feed position is not consulted. -/
noncomputable def calculateNodesAndAntinodes (length k electricalLength : ℝ)
    (impedance : Impedance) : NodesCalculator.NodeSet where
  currentNodes := _calculateCurrentNodes length k
  currentAntinodes := _calculateCurrentAntinodes length k
  voltageNodes := _calculateVoltageNodes length k
  voltageAntinodes := _calculateVoltageAntinodes length k
  harmonic := _getHarmonicNumber electricalLength
  resonant := isResonant impedance

end Visualization

namespace ImpedanceCalculator

/-- Modelled from the spec: the center-fed branch of `calculateImpedance`
(spec §4.1 step 3); the ImpedanceCalculator file is imported by the sources
but is not among them.  The spec leaves the near-half-wave reactance and the
general-case wire-radius reactance term as unspecified "log-based
corrections"; they are taken as parameters `halfWaveCorrection` and
`wireCorrection`. -/
noncomputable def _calculateCenterFedImpedance
    (length k electricalLength lengthToRadiusRatio : ℝ)
    (halfWaveCorrection wireCorrection : ℝ) : Impedance :=
  if electricalLength < 0.1 then
    ⟨max (20 * Real.pi ^ 2 * electricalLength ^ 2) 0.1,
      -(FREE_SPACE_IMPEDANCE / (2 * Real.pi)) *
        (Real.logb 10 (2 * lengthToRadiusRatio) - 0.577)⟩
  else if |electricalLength - 0.5| < 0.05 then
    ⟨DIPOLE_BASE_RESISTANCE, halfWaveCorrection⟩
  else
    let beta := k * length / 2
    if |Real.sin beta| < 0.001 then ⟨CURRENT_NULL_RESISTANCE, 0⟩
    else
      ⟨DIPOLE_BASE_RESISTANCE * Real.sin beta ^ 2,
        43.1 * (Real.cos beta - Real.cos (k * length)) / Real.sin beta + wireCorrection⟩

/-- Modelled from the spec: the end-fed branch of `calculateImpedance`
(spec §4.1 step 4).  The near-quarter-wave reactance is the unspecified
"log-based correction", taken as the parameter `quarterWaveCorrection`. -/
noncomputable def _calculateEndFedImpedance
    (length k electricalLength quarterWaveCorrection : ℝ) : Impedance :=
  if |electricalLength - 0.25| < 0.02 then
    ⟨DIPOLE_BASE_RESISTANCE / 2, quarterWaveCorrection⟩
  else if |electricalLength - 0.5| < 0.02 then
    ⟨HALF_WAVE_END_FED_RESISTANCE, 0⟩
  else
    let beta := k * length
    if |Real.sin beta| < 0.001 then ⟨END_FED_HIGH_IMPEDANCE, 0⟩
    else
      ⟨min (DIPOLE_BASE_RESISTANCE / Real.cos beta ^ 2) HIGH_IMPEDANCE_LIMIT,
        clamp (FREE_SPACE_IMPEDANCE * Real.tan (beta / 2)) (-5000) 5000⟩

/-- Modelled from the spec: the off-center branch of `calculateImpedance`
(spec §4.1 step 5), derived from the center-fed result. -/
noncomputable def _calculateOffCenterImpedance
    (length k electricalLength lengthToRadiusRatio feedPosition : ℝ)
    (halfWaveCorrection wireCorrection : ℝ) : Impedance :=
  let centerFed := _calculateCenterFedImpedance length k electricalLength
    lengthToRadiusRatio halfWaveCorrection wireCorrection
  let offset := |feedPosition - 0.5|
  let electricalOffset := offset * k * length
  let transformFactor :=
    if offset < 0.1 then 1 + 2 * offset else 1 / Real.cos electricalOffset ^ 2
  ⟨centerFed.resistance * transformFactor,
    centerFed.reactance * Real.sqrt transformFactor * Real.cos electricalOffset⟩

/-- Modelled from the spec: `calculateImpedance` (spec §4.1, steps 1-2 and 6;
the memoization of step 7 is identity on the returned value).  Derived
quantities are computed as in step 1, the regime is dispatched on the feed
position as in step 2, and the result is clamped to the `PHYSICS_LIMITS`
bounds as in step 6. -/
noncomputable def calculateImpedance
    (length frequency feedPosition wireDiameter : ℝ)
    (halfWaveCorrection wireCorrection quarterWaveCorrection : ℝ) : Impedance :=
  let wavelength := SPEED_OF_LIGHT / (frequency * 1000000)
  let electricalLength := length / wavelength
  let k := 2 * Real.pi / wavelength
  let wireRadius := wireDiameter * 0.0005
  let lengthToRadiusRatio := length / wireRadius
  let raw :=
    if feedPosition = 0.5 then
      _calculateCenterFedImpedance length k electricalLength lengthToRadiusRatio
        halfWaveCorrection wireCorrection
    else if feedPosition = 0 ∨ feedPosition = 1 then
      _calculateEndFedImpedance length k electricalLength quarterWaveCorrection
    else
      _calculateOffCenterImpedance length k electricalLength lengthToRadiusRatio
        feedPosition halfWaveCorrection wireCorrection
  ⟨clamp raw.resistance 0.1 50000, clamp raw.reactance (-5000) 5000⟩

end ImpedanceCalculator

theorem clamp_le {v lo hi : ℝ} : clamp v lo hi ≤ hi := min_le_right _ _

theorem le_clamp {v lo hi : ℝ} (h : lo ≤ hi) : lo ≤ clamp v lo hi :=
  le_min (le_max_right _ _) h

theorem mem_sortedDedup {a : ℝ} {l : List ℝ} : a ∈ sortedDedup l ↔ a ∈ l :=
  (List.perm_insertionSort _ _).mem_iff.trans List.mem_dedup

theorem sortedDedup_sorted (l : List ℝ) :
    (sortedDedup l).Sorted (· < ·) :=
  List.Sorted.lt_of_le (List.sorted_insertionSort _ _)
    ((List.perm_insertionSort _ _).nodup_iff.mpr l.nodup_dedup)

/-- `_getHarmonicNumber` equals `max 1 (round (electricalLength * 2))`,
with no hypothesis on the electrical length. -/
theorem harmonicNumber_eq_max (e : ℝ) :
    NodesCalculator._getHarmonicNumber e = max 1 (round (e * 2)) := by
  unfold NodesCalculator._getHarmonicNumber
  dsimp only
  split <;> omega

/-- C1: for every model with positive length and positive wave number, the
current-nodes and voltage-antinodes lists contain both wire ends, and the
current-antinodes list contains 0 when the feed is at the center. -/
theorem C1_ends_always_present (length k eLen fp : ℝ) (z : Impedance)
    (hl : 0 < length) (hk : 0 < k) :
    (-(length / 2) ∈
          (NodesCalculator.calculateNodesAndAntinodes length k eLen fp z).currentNodes ∧
        length / 2 ∈
          (NodesCalculator.calculateNodesAndAntinodes length k eLen fp z).currentNodes) ∧
      (-(length / 2) ∈
            (NodesCalculator.calculateNodesAndAntinodes length k eLen fp z).voltageAntinodes ∧
          length / 2 ∈
            (NodesCalculator.calculateNodesAndAntinodes length k eLen fp z).voltageAntinodes) ∧
        (fp = 0.5 →
          (0 : ℝ) ∈
            (NodesCalculator.calculateNodesAndAntinodes length k eLen fp z).currentAntinodes) := by
  refine ⟨⟨?_, ?_⟩, ⟨?_, ?_⟩, fun hfp => ?_⟩
  · exact mem_sortedDedup.mpr (List.mem_cons_self _ _)
  · exact mem_sortedDedup.mpr (List.mem_cons.mpr (Or.inr (List.mem_cons_self _ _)))
  · exact mem_sortedDedup.mpr (List.mem_cons_self _ _)
  · exact mem_sortedDedup.mpr (List.mem_cons.mpr (Or.inr (List.mem_cons_self _ _)))
  · show (0 : ℝ) ∈ NodesCalculator._calculateCurrentAntinodes length k fp
    unfold NodesCalculator._calculateCurrentAntinodes
    refine mem_sortedDedup.mpr (List.mem_append.mpr (Or.inl ?_))
    rw [if_pos hfp]
    exact List.mem_cons_self _ _

theorem C1_ends_always_present_witness :
    (0 : ℝ) < 10 ∧ (0 : ℝ) < 2 ∧
      ((0 : ℝ) ∈
        (NodesCalculator.calculateNodesAndAntinodes 10 2 1 0.5
            ⟨73, 0⟩).currentAntinodes) :=
  ⟨by norm_num, by norm_num,
    (C1_ends_always_present 10 2 1 0.5 ⟨73, 0⟩ (by norm_num) (by norm_num)).2.2 rfl⟩

/-- C7: the current-antinodes list contains the feed-determined position:
0 for a center feed, the fed wire end for an end feed, and
`(feedPosition - 0.5) * length` for any other feed in (0, 1). -/
theorem C7_feed_antinode (length k eLen fp : ℝ) (z : Impedance)
    (hl : 0 < length) (hk : 0 < k) :
    (fp = 0.5 →
        (0 : ℝ) ∈
          (NodesCalculator.calculateNodesAndAntinodes length k eLen fp z).currentAntinodes) ∧
      (fp = 0 →
          -(length / 2) ∈
            (NodesCalculator.calculateNodesAndAntinodes length k eLen fp z).currentAntinodes) ∧
        (fp = 1 →
            length / 2 ∈
              (NodesCalculator.calculateNodesAndAntinodes length k eLen fp z).currentAntinodes) ∧
          (0 < fp → fp < 1 → fp ≠ 0.5 →
            (fp - 0.5) * length ∈
              (NodesCalculator.calculateNodesAndAntinodes length k eLen fp z).currentAntinodes) := by
  refine ⟨fun h05 => ?_, fun h0 => ?_, fun h1 => ?_, fun hpos hlt hne => ?_⟩ <;>
    · show _ ∈ NodesCalculator._calculateCurrentAntinodes length k fp
      unfold NodesCalculator._calculateCurrentAntinodes
      refine mem_sortedDedup.mpr (List.mem_append.mpr (Or.inl ?_))
      first
        | · rw [if_pos h05]
            exact List.mem_cons_self _ _
        | · subst h0
            norm_num
        | · subst h1
            norm_num
        | · rw [if_neg hne, if_neg]
            · exact List.mem_cons_self _ _
            · push_neg
              exact ⟨ne_of_gt hpos, ne_of_lt hlt⟩

theorem C7_feed_antinode_witness :
    (0 : ℝ) < 10 ∧ (0 : ℝ) < 2 ∧ (0 : ℝ) < 0.25 ∧ (0.25 : ℝ) < 1 ∧ (0.25 : ℝ) ≠ 0.5 ∧
      (((0.25 : ℝ) - 0.5) * 10 ∈
        (NodesCalculator.calculateNodesAndAntinodes 10 2 1 0.25
            ⟨73, 0⟩).currentAntinodes) :=
  ⟨by norm_num, by norm_num, by norm_num, by norm_num, by norm_num,
    (C7_feed_antinode 10 2 1 0.25 ⟨73, 0⟩ (by norm_num) (by norm_num)).2.2.2
      (by norm_num) (by norm_num) (by norm_num)⟩

/-- C8: each of the four lists returned by `calculateNodesAndAntinodes` is
strictly increasing (sorted ascending with no duplicates). -/
theorem C8_lists_strictly_increasing (length k eLen fp : ℝ) (z : Impedance)
    (hl : 0 < length) (hk : 0 < k) :
    ((NodesCalculator.calculateNodesAndAntinodes length k eLen fp z).currentNodes.Sorted
          (· < ·)) ∧
      ((NodesCalculator.calculateNodesAndAntinodes length k eLen fp z).currentAntinodes.Sorted
            (· < ·)) ∧
        ((NodesCalculator.calculateNodesAndAntinodes length k eLen fp z).voltageNodes.Sorted
              (· < ·)) ∧
          ((NodesCalculator.calculateNodesAndAntinodes length k eLen fp z).voltageAntinodes.Sorted
            (· < ·)) :=
  ⟨sortedDedup_sorted _, sortedDedup_sorted _, sortedDedup_sorted _, sortedDedup_sorted _⟩

theorem C8_lists_strictly_increasing_witness :
    (0 : ℝ) < 10 ∧ (0 : ℝ) < 2 ∧
      ((NodesCalculator.calculateNodesAndAntinodes 10 2 1 0.5 ⟨73, 0⟩).currentNodes.Sorted
        (· < ·)) :=
  ⟨by norm_num, by norm_num,
    (C8_lists_strictly_increasing 10 2 1 0.5 ⟨73, 0⟩ (by norm_num) (by norm_num)).1⟩

/-- C3: the resonance predicate holds exactly when
`|reactance| < max(15, 0.2 * resistance)`. -/
theorem C3_isResonant_iff (z : Impedance) :
    isResonant z ↔ |z.reactance| < max 15 (0.2 * z.resistance) := by
  unfold isResonant
  rw [mul_comm]

/-- C4: for every positive electrical length, the harmonic number equals
`max 1 (round (2 * electricalLength))`. -/
theorem C4_harmonic_formula (e : ℝ) (h : 0 < e) :
    NodesCalculator._getHarmonicNumber e = max 1 (round (2 * e)) := by
  rw [harmonicNumber_eq_max, mul_comm]

theorem C4_harmonic_formula_witness :
    (0 : ℝ) < 1 ∧
      NodesCalculator._getHarmonicNumber 1 = max 1 (round ((2 : ℝ) * 1)) :=
  ⟨one_pos, C4_harmonic_formula 1 one_pos⟩

/-- C5: the harmonic number is monotone in the electrical length and is
never below 1. -/
theorem C5_harmonic_monotone :
    (∀ e₁ e₂ : ℝ, e₁ ≤ e₂ →
        NodesCalculator._getHarmonicNumber e₁ ≤ NodesCalculator._getHarmonicNumber e₂) ∧
      ∀ e : ℝ, 1 ≤ NodesCalculator._getHarmonicNumber e := by
  constructor
  · intro e₁ e₂ hle
    rw [harmonicNumber_eq_max, harmonicNumber_eq_max]
    have h : round (e₁ * 2) ≤ round (e₂ * 2) := by
      rw [round_eq, round_eq]
      exact Int.floor_mono (by linarith)
    omega
  · intro e
    rw [harmonicNumber_eq_max]
    exact le_max_left _ _

theorem C5_harmonic_monotone_witness :
    NodesCalculator._getHarmonicNumber 0 ≤ NodesCalculator._getHarmonicNumber 1 ∧
      1 ≤ NodesCalculator._getHarmonicNumber 0 :=
  ⟨C5_harmonic_monotone.1 0 1 zero_le_one, C5_harmonic_monotone.2 0⟩

/-- C2: for every valid input (and any values of the spec-unspecified
correction terms), the computed impedance has resistance in `[0.1, 50000]`
and reactance in `[-5000, 5000]`. -/
theorem C2_impedance_clamped
    (length frequency feedPosition wireDiameter : ℝ)
    (halfWaveCorrection wireCorrection quarterWaveCorrection : ℝ)
    (hl : 0 < length) (hf : 0 < frequency)
    (hfp0 : 0 ≤ feedPosition) (hfp1 : feedPosition ≤ 1) (hd : 0 < wireDiameter) :
    0.1 ≤ (ImpedanceCalculator.calculateImpedance length frequency feedPosition
          wireDiameter halfWaveCorrection wireCorrection quarterWaveCorrection).resistance ∧
      (ImpedanceCalculator.calculateImpedance length frequency feedPosition
          wireDiameter halfWaveCorrection wireCorrection quarterWaveCorrection).resistance ≤
        50000 ∧
        -5000 ≤ (ImpedanceCalculator.calculateImpedance length frequency feedPosition
            wireDiameter halfWaveCorrection wireCorrection quarterWaveCorrection).reactance ∧
          (ImpedanceCalculator.calculateImpedance length frequency feedPosition
            wireDiameter halfWaveCorrection wireCorrection quarterWaveCorrection).reactance ≤
            5000 :=
  ⟨le_clamp (by norm_num), clamp_le, le_clamp (by norm_num), clamp_le⟩

theorem C2_impedance_clamped_witness :
    (0 : ℝ) < 10.6 ∧ (0 : ℝ) < 14.2 ∧ (0 : ℝ) ≤ 0.5 ∧ (0.5 : ℝ) ≤ 1 ∧ (0 : ℝ) < 2 ∧
      0.1 ≤ (ImpedanceCalculator.calculateImpedance 10.6 14.2 0.5 2 0 0 0).resistance :=
  ⟨by norm_num, by norm_num, by norm_num, by norm_num, by norm_num,
    (C2_impedance_clamped 10.6 14.2 0.5 2 0 0 0 (by norm_num) (by norm_num)
        (by norm_num) (by norm_num) (by norm_num)).1⟩

/-- C6 (amended): `getResonanceGuidance` divides the reactance by the
literal 377, not by `FREE_SPACE_IMPEDANCE = 376.730313668`.  With that
constant corrected, the claim holds: a resonant impedance reports status
`Resonant`, well-matched guidance and no length adjustment; a non-resonant
impedance with reactance below -15 is directed to lengthen the wire by
`(|reactance| / 377) * wavelength * 0.1`, and one with reactance above 15 to
shorten it by the same amount. -/
theorem C6_guidance_with_377 (z : Impedance) (wavelength currentLength : ℝ) :
    (isResonant z →
        NodesCalculator.getResonanceGuidance z wavelength currentLength =
          ⟨.resonant, .wellMatched, none, none⟩) ∧
      (¬ isResonant z →
        (z.reactance < -15 →
            NodesCalculator.getResonanceGuidance z wavelength currentLength =
              ⟨.notResonant, .tooShortAdd, some (|z.reactance| / 377 * wavelength * 0.1),
                some (currentLength + |z.reactance| / 377 * wavelength * 0.1)⟩) ∧
          (z.reactance > 15 →
            NodesCalculator.getResonanceGuidance z wavelength currentLength =
              ⟨.notResonant, .tooLongRemove, some (|z.reactance| / 377 * wavelength * 0.1),
                some (currentLength - |z.reactance| / 377 * wavelength * 0.1)⟩)) := by
  refine ⟨fun hres => ?_, fun hnr => ⟨fun hneg => ?_, fun hpos => ?_⟩⟩
  · unfold NodesCalculator.getResonanceGuidance
    rw [if_pos hres]
  · unfold NodesCalculator.getResonanceGuidance
    rw [if_neg hnr, if_pos hneg]
  · unfold NodesCalculator.getResonanceGuidance
    rw [if_neg hnr, if_neg (by linarith : ¬ z.reactance < -15), if_pos hpos,
      abs_of_pos (by linarith : (0 : ℝ) < z.reactance)]

theorem C6_guidance_with_377_witness :
    ¬ isResonant ⟨50, -377⟩ ∧ (Impedance.mk 50 (-377)).reactance < -15 ∧
      NodesCalculator.getResonanceGuidance ⟨50, -377⟩ 10 20 =
        ⟨.notResonant, .tooShortAdd, some (|(-377 : ℝ)| / 377 * 10 * 0.1),
          some (20 + |(-377 : ℝ)| / 377 * 10 * 0.1)⟩ := by
  have hnr : ¬ isResonant ⟨50, -377⟩ := by
    unfold isResonant
    rw [show (Impedance.mk 50 (-377)).reactance = -377 from rfl,
      show (Impedance.mk 50 (-377)).resistance = 50 from rfl,
      abs_of_neg (by norm_num : (-377 : ℝ) < 0),
      max_eq_left (by norm_num : (50 : ℝ) * 0.2 ≤ 15)]
    norm_num
  exact ⟨hnr, by norm_num,
    ((C6_guidance_with_377 ⟨50, -377⟩ 10 20).2 hnr).1 (by norm_num)⟩

/-- C6 fails as stated: at resistance 50, reactance -377, wavelength 10,
the code's length adjustment is `377/377 * 10 * 0.1 = 1`, not
`(377 / 376.730313668) * 10 * 0.1`. -/
theorem C6_counterexample_377 :
    ¬ isResonant ⟨50, -377⟩ ∧
      (NodesCalculator.getResonanceGuidance ⟨50, -377⟩ 10 20).lengthAdjustment ≠
        some (|(-377 : ℝ)| / FREE_SPACE_IMPEDANCE * 10 * 0.1) := by
  have habs : |(-377 : ℝ)| = 377 := by
    rw [abs_of_neg (by norm_num : (-377 : ℝ) < 0)]
    norm_num
  have hnr : ¬ isResonant ⟨50, -377⟩ := by
    unfold isResonant
    rw [show (Impedance.mk 50 (-377)).reactance = -377 from rfl,
      show (Impedance.mk 50 (-377)).resistance = 50 from rfl, habs,
      max_eq_left (by norm_num : (50 : ℝ) * 0.2 ≤ 15)]
    norm_num
  refine ⟨hnr, ?_⟩
  unfold NodesCalculator.getResonanceGuidance
  rw [if_neg hnr, if_pos (show (Impedance.mk 50 (-377)).reactance < -15 by norm_num)]
  simp only [Option.some.injEq, ne_eq]
  rw [habs, FREE_SPACE_IMPEDANCE]
  norm_num

/-- C9: a non-resonant impedance always has `|reactance| ≥ 15`; the
nearly-resonant fallback (zero adjustment) is reachable only at
`|reactance| = 15`; and a strictly non-resonant impedance always receives a
strictly positive adjustment with a definite direction. -/
theorem C9_strict_nonresonant_direction :
    (∀ z : Impedance, ¬ isResonant z → 15 ≤ |z.reactance|) ∧
      (∀ (z : Impedance) (w l : ℝ),
          (NodesCalculator.getResonanceGuidance z w l).kind = GuidanceKind.nearlyResonant →
            |z.reactance| = 15) ∧
        ∀ (z : Impedance) (w l : ℝ), 0 < w →
          max 15 (z.resistance * 0.2) < |z.reactance| →
          ∃ a : ℝ,
            (NodesCalculator.getResonanceGuidance z w l).lengthAdjustment = some a ∧
              0 < a ∧
              ((z.reactance < -15 ∧
                  (NodesCalculator.getResonanceGuidance z w l).kind =
                    GuidanceKind.tooShortAdd) ∨
                (15 < z.reactance ∧
                  (NodesCalculator.getResonanceGuidance z w l).kind =
                    GuidanceKind.tooLongRemove)) := by
  have habs_ge : ∀ z : Impedance, ¬ isResonant z → 15 ≤ |z.reactance| := by
    intro z h
    unfold isResonant at h
    push_neg at h
    exact le_trans (le_max_left _ _) h
  refine ⟨habs_ge, fun z w l hk => ?_, fun z w l hw hstrict => ?_⟩
  · unfold NodesCalculator.getResonanceGuidance at hk
    by_cases hres : isResonant z
    · rw [if_pos hres] at hk
      exact GuidanceKind.noConfusion hk
    · rw [if_neg hres] at hk
      by_cases h1 : z.reactance < -15
      · rw [if_pos h1] at hk
        exact GuidanceKind.noConfusion hk
      · rw [if_neg h1] at hk
        by_cases h2 : z.reactance > 15
        · rw [if_pos h2] at hk
          exact GuidanceKind.noConfusion hk
        · push_neg at h1 h2
          refine le_antisymm ?_ (habs_ge z hres)
          exact abs_le.mpr ⟨by linarith, h2⟩
  · have hnr : ¬ isResonant z := not_lt.mpr hstrict.le
    have h15 : 15 < |z.reactance| := lt_of_le_of_lt (le_max_left _ _) hstrict
    rcases lt_abs.mp h15 with h2 | h1
    · refine ⟨z.reactance / 377 * w * 0.1, ?_⟩
      unfold NodesCalculator.getResonanceGuidance
      rw [if_neg hnr, if_neg (by linarith : ¬ z.reactance < -15), if_pos h2]
      exact ⟨rfl,
        mul_pos (mul_pos (div_pos (by linarith) (by norm_num)) hw) (by norm_num),
        Or.inr ⟨h2, rfl⟩⟩
    · have h1' : z.reactance < -15 := by linarith
      refine ⟨|z.reactance| / 377 * w * 0.1, ?_⟩
      unfold NodesCalculator.getResonanceGuidance
      rw [if_neg hnr, if_pos h1']
      exact ⟨rfl,
        mul_pos (mul_pos (div_pos (by linarith) (by norm_num)) hw) (by norm_num),
        Or.inl ⟨h1', rfl⟩⟩

theorem C9_strict_nonresonant_direction_witness :
    ¬ isResonant ⟨50, 377⟩ ∧ (0 : ℝ) < 10 ∧
      max 15 ((Impedance.mk 50 377).resistance * 0.2) < |(Impedance.mk 50 377).reactance| ∧
      (∃ a : ℝ,
        (NodesCalculator.getResonanceGuidance ⟨50, 377⟩ 10 20).lengthAdjustment = some a ∧
          0 < a ∧
          (((Impedance.mk 50 377).reactance < -15 ∧
              (NodesCalculator.getResonanceGuidance ⟨50, 377⟩ 10 20).kind =
                GuidanceKind.tooShortAdd) ∨
            (15 < (Impedance.mk 50 377).reactance ∧
              (NodesCalculator.getResonanceGuidance ⟨50, 377⟩ 10 20).kind =
                GuidanceKind.tooLongRemove))) ∧
      15 ≤ |(Impedance.mk 50 377).reactance| := by
  have hmax : max 15 ((Impedance.mk 50 377).resistance * 0.2) <
      |(Impedance.mk 50 377).reactance| := by
    rw [show (Impedance.mk 50 377).reactance = 377 from rfl,
      show (Impedance.mk 50 377).resistance = 50 from rfl,
      abs_of_pos (by norm_num : (0 : ℝ) < 377),
      max_eq_left (by norm_num : (50 : ℝ) * 0.2 ≤ 15)]
    norm_num
  have hnr : ¬ isResonant ⟨50, 377⟩ := not_lt.mpr hmax.le
  exact ⟨hnr, by norm_num, hmax,
    C9_strict_nonresonant_direction.2.2 ⟨50, 377⟩ 10 20 (by norm_num) hmax,
    C9_strict_nonresonant_direction.1 ⟨50, 377⟩ hnr⟩

/-- C10 (amended): the two `NodesCalculator` implementations agree on the
harmonic number for every electrical length; their node/antinode list
computations are not equivalent. -/
theorem C10_harmonic_numbers_agree (e : ℝ) :
    NodesCalculator._getHarmonicNumber e = Visualization._getHarmonicNumber e := rfl

/-- C10 fails as stated: for an end-fed model with length 2 m and wave
number π (wavelength 2 m, electrical length 1), the src/lib/physics
calculator returns current antinodes `[-1]` (the fed end) while the
visualization calculator returns `[0]` (it assumes a center feed). -/
theorem C10_counterexample_antinodes_differ :
    (NodesCalculator.calculateNodesAndAntinodes 2 Real.pi 1 0 ⟨73, 0⟩).currentAntinodes ≠
      (Visualization.calculateNodesAndAntinodes 2 Real.pi 1 ⟨73, 0⟩).currentAntinodes := by
  have hpi : (Real.pi : ℝ) ≠ 0 := Real.pi_ne_zero
  have hwl : 2 * Real.pi / Real.pi = 2 := mul_div_cancel_right₀ 2 hpi
  have hL : (NodesCalculator.calculateNodesAndAntinodes 2 Real.pi 1 0
      ⟨73, 0⟩).currentAntinodes = [-1] := by
    show NodesCalculator._calculateCurrentAntinodes 2 Real.pi 0 = [-1]
    unfold NodesCalculator._calculateCurrentAntinodes
    norm_num [MAX_HARMONICS, EDGE_BUFFER,
      show List.range' 1 7 = [1, 2, 3, 4, 5, 6, 7] from rfl,
      List.foldr_cons, List.foldr_nil, mul_div_cancel_right₀, hpi,
      sortedDedup, List.dedup_cons_of_not_mem, List.dedup_nil,
      List.insertionSort, List.orderedInsert]
  have hR : (Visualization.calculateNodesAndAntinodes 2 Real.pi 1
      ⟨73, 0⟩).currentAntinodes = [0] := by
    show Visualization._calculateCurrentAntinodes 2 Real.pi = [0]
    unfold Visualization._calculateCurrentAntinodes
    norm_num [hwl, show Int.toNat 4 = 4 from rfl,
      show List.range' 1 3 = [1, 2, 3] from rfl,
      List.flatMap_cons, List.flatMap_nil,
      List.foldr_cons, List.foldr_nil, mul_div_cancel_right₀, hpi,
      sortedDedup, List.dedup_cons_of_not_mem, List.dedup_nil,
      List.insertionSort, List.orderedInsert]
  rw [hL, hR]
  simp

end AntennaLab
